import Mathlib

/-!
Shallow embedding of the aggregation core of `src/Dashboard/dashboard.py`
(an e-commerce analytics dashboard).  Rows of the working table are
`Row` records; pandas operations are modelled on lists:

* `df.filter` models boolean-mask selection;
* `groupby` emits one group per distinct key, keys in ascending order
  (pandas `groupby` sorts keys by default) and, following pandas'
  default `dropna=True`, rows whose key is missing (`none`) are dropped;
* `nunique` is the number of distinct values (`List.dedup.length`);
* `resample('D')` buckets rows by calendar day from the earliest to the
  latest day present in the data;
* `sort_values` defaults to an unstable quicksort, so the program
  guarantees no order among entries with equal sort keys; an executable
  model must still pick some sort, and `List.insertionSort` is used as
  one concrete realization — no theorem below relies on how it orders
  equal keys, only on properties every correct descending sort has
  (sortedness and being a permutation of its input);
* string columns are ordered lexicographically on their characters;
* timestamps are epoch seconds (`Nat`), calendar dates epoch days
  (`t / 86400`), money is exact decimals (`Rat`).
-/

namespace Dashboard

/-- One order-line record of the working table (after ingestion parsed
timestamps and derived columns). -/
structure Row where
  order_id : String
  customer_id : String
  customer_unique_id : String
  customer_state : Option String
  product_id : String
  order_status : String
  payment_type : String
  price : Rat
  freight_value : Rat
  order_purchase_timestamp : Nat
deriving DecidableEq

/-- Derived column `df["total_price"] = df["price"] + df["freight_value"]`. -/
def total_price (r : Row) : Rat := r.price + r.freight_value

/-- Calendar date (epoch day) of an epoch-second timestamp; models `.dt.date`. -/
def dateOf (t : Nat) : Nat := t / 86400

/-- Calendar date of a row's `order_purchase_timestamp`. -/
def purchaseDate (r : Row) : Nat := dateOf r.order_purchase_timestamp

/-- Maximum of a list of naturals (0 on the empty list); models `.max()`
over non-negative day/second values. -/
def listMax (l : List Nat) : Nat := l.foldl max 0

/-- Minimum of a non-empty list of naturals (0 on the empty list);
models `.min()`. -/
def listMin : List Nat → Nat
  | [] => 0
  | x :: xs => xs.foldl min x

/-- Number of distinct values in a column; models pandas `nunique`. -/
def distinctCount (l : List String) : Nat := l.dedup.length

/-- Lexicographic order on strings (the order pandas sorts string keys
and labels by). -/
def strLe (a b : String) : Prop := a.data ≤ b.data

instance : DecidableRel strLe := fun a b => inferInstanceAs (Decidable (a.data ≤ b.data))

instance : IsTotal String strLe := ⟨fun a b => le_total a.data b.data⟩

instance : IsTrans String strLe := ⟨fun _ _ _ hab hbc => le_trans hab hbc⟩

/-- Distinct keys of a `groupby`, in ascending order (pandas sorts group
keys by default). -/
def groupKeys (keys : List String) : List String :=
  keys.dedup.insertionSort strLe

/-- The date-range filter applied to build `main_df`:
`df[(df.order_purchase_timestamp.dt.date >= start_date) & (dt.date <= end_date)]`,
both bounds inclusive, comparing calendar dates. -/
def filterByDateRange (df : List Row) (start_date end_date : Nat) : List Row :=
  df.filter (fun r => decide (start_date ≤ purchaseDate r ∧ purchaseDate r ≤ end_date))

/-- Earliest purchase calendar date present in a table. -/
def minDate (df : List Row) : Nat := listMin (df.map purchaseDate)

/-- Latest purchase calendar date present in a table; this is
`df["order_purchase_timestamp"].dt.date.max()`, the reference point used
by the RFM recency. -/
def maxDate (df : List Row) : Nat := listMax (df.map purchaseDate)

/-- The rows of a table falling on one calendar day (one `resample('D')`
bucket). -/
def rowsOnDate (df : List Row) (d : Nat) : List Row :=
  df.filter (fun r => decide (purchaseDate r = d))

/-- One entry of the daily order/revenue rollup. -/
structure DailyEntry where
  date : Nat
  order_count : Nat
  revenue : Rat
deriving DecidableEq

/-- `create_daily_orders_df`: resample by calendar day of
`order_purchase_timestamp`; per bucket `order_count` is the number of
distinct `order_id` values and `revenue` the sum of `total_price`.
`resample` emits one bucket per calendar day from the earliest to the
latest day present in the input (interior empty days included); an empty
input yields an empty result. -/
def create_daily_orders_df (df : List Row) : List DailyEntry :=
  match df with
  | [] => []
  | _ :: _ =>
    (List.range' (minDate df) (maxDate df + 1 - minDate df)).map (fun d =>
      { date := d
        order_count := distinctCount ((rowsOnDate df d).map Row.order_id)
        revenue := ((rowsOnDate df d).map total_price).sum })

/-- One entry of the freight-cost-by-product rollup. -/
structure FreightEntry where
  product_id : String
  freight_value : Rat
deriving DecidableEq

/-- The rows of a table with a given `product_id`. -/
def rowsOfProduct (df : List Row) (p : String) : List Row :=
  df.filter (fun r => decide (r.product_id = p))

/-- The descending order on summed freight values used by
`sort_values('freight_value', ascending=False)`. -/
def freightGe (a b : FreightEntry) : Prop := b.freight_value ≤ a.freight_value

instance : DecidableRel freightGe :=
  fun a b => inferInstanceAs (Decidable (b.freight_value ≤ a.freight_value))

instance : IsTotal FreightEntry freightGe := ⟨fun a b => (le_total b.freight_value a.freight_value)⟩

instance : IsTrans FreightEntry freightGe := ⟨fun _ _ _ hab hbc => le_trans hbc hab⟩

/-- `create_sum_freight_items_df`: group by `product_id` (groups in
ascending key order), sum `freight_value` per group, then
`sort_values('freight_value', ascending=False)`.  `sort_values`
defaults to an unstable quicksort, so the program guarantees no order
among groups with equal sums; `List.insertionSort` stands in as one
concrete executable sort, and no theorem about this aggregator depends
on how it orders equal sums. -/
def create_sum_freight_items_df (df : List Row) : List FreightEntry :=
  ((groupKeys (df.map Row.product_id)).map (fun p =>
    { product_id := p
      freight_value := ((rowsOfProduct df p).map Row.freight_value).sum
      : FreightEntry })).insertionSort freightGe

/-- One entry of the customer-count-by-state rollup. -/
structure StateEntry where
  customer_state : String
  customer_count : Nat
deriving DecidableEq

/-- The rows of a table whose (non-missing) state equals `s`. -/
def rowsOfState (df : List Row) (s : String) : List Row :=
  df.filter (fun r => decide (r.customer_state = some s))

/-- `create_bystate_df`: group by `customer_state`, count distinct
`customer_id` per group.  Pandas `groupby` drops rows whose key is
missing (`dropna=True` default), so rows with `customer_state = none`
contribute no group. -/
def create_bystate_df (df : List Row) : List StateEntry :=
  (groupKeys (df.filterMap Row.customer_state)).map (fun s =>
    { customer_state := s
      customer_count := distinctCount ((rowsOfState df s).map Row.customer_id) })

/-- The descending order on counts used by `value_counts`. -/
def countGe (a b : String × Nat) : Prop := b.2 ≤ a.2

instance : DecidableRel countGe := fun a b => inferInstanceAs (Decidable (b.2 ≤ a.2))

instance : IsTotal (String × Nat) countGe := ⟨fun a b => le_total b.2 a.2⟩

instance : IsTrans (String × Nat) countGe := ⟨fun _ _ _ hab hbc => le_trans hbc hab⟩

/-- The ascending order on category labels used by `sort_index()`. -/
def labelLe (a b : String × Nat) : Prop := strLe a.1 b.1

instance : DecidableRel labelLe := fun a b => inferInstanceAs (Decidable (strLe a.1 b.1))

instance : IsTotal (String × Nat) labelLe := ⟨fun a b => le_total a.1.data b.1.data⟩

instance : IsTrans (String × Nat) labelLe := ⟨fun _ _ _ hab hbc => le_trans hab hbc⟩

/-- Pandas `value_counts` on a (non-null) string column: one pair per
distinct value with its row count, sorted by count descending (stable). -/
def value_counts (l : List String) : List (String × Nat) :=
  (l.dedup.map (fun k => (k, (l.filter (fun x => decide (x = k))).length))).insertionSort countGe

/-- The counts behind `plot_order_status_distribution`:
`df['order_status'].value_counts().sort_index()` (final order: ascending
by label). -/
def order_status_counts (df : List Row) : List (String × Nat) :=
  (value_counts (df.map Row.order_status)).insertionSort labelLe

/-- The counts behind `plot_payment_type_distribution`:
`df['payment_type'].value_counts()`. -/
def payment_type_counts (df : List Row) : List (String × Nat) :=
  value_counts (df.map Row.payment_type)

/-- One entry of the RFM result (the source renames
`customer_unique_id` to `customer_id` in its output). -/
structure RfmEntry where
  customer_id : String
  frequency : Nat
  monetary : Rat
  recency : Int
deriving DecidableEq

/-- The rows of a table belonging to one `customer_unique_id`. -/
def customerRows (df : List Row) (c : String) : List Row :=
  df.filter (fun r => decide (r.customer_unique_id = c))

/-- A customer's most recent purchase calendar date within the table. -/
def customerMaxDate (df : List Row) (c : String) : Nat :=
  listMax ((customerRows df c).map purchaseDate)

/-- `create_rfm_df`: group by `customer_unique_id`; per customer
`frequency` is the number of distinct `order_id` values, `monetary` the
sum of `total_price`, and `recency` the day difference between the
table-wide maximum purchase date (`recent_date`) and the date of the
customer's maximum `order_purchase_timestamp`. -/
def create_rfm_df (df : List Row) : List RfmEntry :=
  (groupKeys (df.map Row.customer_unique_id)).map (fun c =>
    { customer_id := c
      frequency := distinctCount ((customerRows df c).map Row.order_id)
      monetary := ((customerRows df c).map total_price).sum
      recency := (maxDate df : Int) -
        (dateOf (listMax ((customerRows df c).map Row.order_purchase_timestamp)) : Int) })

/-- Ambient state the script can observe: the wall clock
(`datetime.now()`), read once at the top of the script. -/
structure Ambient where
  now_hour : Nat

/-- The greeting chosen from the wall-clock hour at the top of the
script (the only clock read in the program). -/
def greetingOf (env : Ambient) : String :=
  if env.now_hour < 12 then "Good Morning"
  else if env.now_hour < 18 then "Good Afternoon"
  else "Good Evening"

/-- The dashboard run on one filter selection: reads the ambient clock
for the greeting, builds `main_df` by the date filter, and fans out to
the five aggregators. -/
def run_dashboard (env : Ambient) (df : List Row) (start_date end_date : Nat) :
    String × List DailyEntry × List FreightEntry × List StateEntry ×
      List (String × Nat) × List (String × Nat) × List RfmEntry :=
  let main_df := filterByDateRange df start_date end_date
  (greetingOf env,
   create_daily_orders_df main_df,
   create_sum_freight_items_df main_df,
   create_bystate_df main_df,
   order_status_counts main_df,
   payment_type_counts main_df,
   create_rfm_df main_df)

/-- A default concrete row used to build test tables. -/
def sampleRow : Row :=
  { order_id := "o1"
    customer_id := "c1"
    customer_unique_id := "u1"
    customer_state := some "SP"
    product_id := "p1"
    order_status := "delivered"
    payment_type := "boleto"
    price := 10
    freight_value := 2
    order_purchase_timestamp := 0 }

/-- Shape contract of the daily rollup on a non-empty table: one entry
per calendar day from the earliest to the latest order day present
(that count of entries), dates ascending, per-day distinct-order count
and revenue, and zero-filled days where no order falls. -/
def DailyRollupSpec (df : List Row) : Prop :=
  (create_daily_orders_df df).length = maxDate df + 1 - minDate df
  ∧ (create_daily_orders_df df).map DailyEntry.date
      = List.range' (minDate df) (maxDate df + 1 - minDate df)
  ∧ (create_daily_orders_df df).Pairwise (fun a b => a.date < b.date)
  ∧ (∀ en ∈ create_daily_orders_df df,
      en.order_count = distinctCount ((rowsOnDate df en.date).map Row.order_id)
        ∧ en.revenue = ((rowsOnDate df en.date).map total_price).sum)
  ∧ (∀ en ∈ create_daily_orders_df df, rowsOnDate df en.date = [] →
      en.order_count = 0 ∧ en.revenue = 0)

/-- Recency contract of the RFM table: every customer appearing in the
table has an entry whose recency is the table-wide maximum purchase
date minus the customer's own maximum purchase date; recency is never
negative; and some entry has recency zero. -/
def RfmRecencySpec (df : List Row) : Prop :=
  (∀ c ∈ df.map Row.customer_unique_id, ∃ en ∈ create_rfm_df df,
      en.customer_id = c ∧ en.recency = (maxDate df : Int) - (customerMaxDate df c : Int))
  ∧ (∀ en ∈ create_rfm_df df, 0 ≤ en.recency)
  ∧ (∃ en ∈ create_rfm_df df, en.recency = 0)

/-- A one-row table whose single order falls on calendar day 1. -/
def c1df : List Row := [{ sampleRow with order_purchase_timestamp := 86400 }]

/-- Two rows with equal freight values whose first-encountered product
order is `"pb"` before `"pa"`. -/
def c3df : List Row :=
  [{ sampleRow with product_id := "pb", freight_value := 5 },
   { sampleRow with order_id := "o2", product_id := "pa", freight_value := 5 }]

/-- A one-row table whose customer state is missing. -/
def c6df : List Row := [{ sampleRow with customer_state := none }]

/-- Two orders of one customer on calendar days 0 and 9 (the spec's
example scenario). -/
def rfmExample : List Row :=
  [{ sampleRow with price := 48, freight_value := 2 },
   { sampleRow with
      order_id := "o2"
      price := 28
      freight_value := 2
      order_purchase_timestamp := 86400 * 9 }]

/-- Three rows of one customer spanning two distinct orders. -/
def freqExample : List Row :=
  [sampleRow,
   { sampleRow with product_id := "p2" },
   { sampleRow with order_id := "o2" }]

/-! ## Helper lemmas -/

theorem le_foldl_max_init : ∀ (l : List Nat) (a : Nat), a ≤ l.foldl max a
  | [], a => le_refl a
  | x :: xs, a => le_trans (le_max_left a x) (le_foldl_max_init xs (max a x))

theorem le_foldl_max_mem : ∀ (l : List Nat) (a : Nat) {x : Nat}, x ∈ l → x ≤ l.foldl max a
  | x :: xs, a, y, h => by
    rcases List.mem_cons.mp h with h | h
    · subst h; exact le_trans (le_max_right a y) (le_foldl_max_init xs (max a y))
    · exact le_foldl_max_mem xs (max a x) h

theorem foldl_max_eq_or_mem : ∀ (l : List Nat) (a : Nat), l.foldl max a = a ∨ l.foldl max a ∈ l
  | [], _ => Or.inl rfl
  | x :: xs, a => by
    rw [List.foldl_cons]
    rcases foldl_max_eq_or_mem xs (max a x) with h | h
    · rw [h]
      rcases max_choice a x with h₂ | h₂
      · exact Or.inl h₂
      · rw [h₂]; exact Or.inr (List.mem_cons_self x xs)
    · exact Or.inr (List.mem_cons_of_mem x h)

theorem le_listMax {l : List Nat} {x : Nat} (h : x ∈ l) : x ≤ listMax l :=
  le_foldl_max_mem l 0 h

theorem listMax_mem {l : List Nat} (h : l ≠ []) : listMax l ∈ l := by
  rcases foldl_max_eq_or_mem l 0 with h₀ | h₀
  · match l, h with
    | x :: xs, _ =>
      have hx : x ≤ listMax (x :: xs) := le_listMax (List.mem_cons_self x xs)
      have h1 : listMax (x :: xs) = 0 := h₀
      have hx0 : x = 0 := Nat.le_zero.mp (h1 ▸ hx)
      rw [h1, ← hx0]
      exact List.mem_cons_self x xs
  · exact h₀

theorem foldl_min_le_init : ∀ (l : List Nat) (a : Nat), l.foldl min a ≤ a
  | [], a => le_refl a
  | x :: xs, a => le_trans (foldl_min_le_init xs (min a x)) (min_le_left a x)

theorem foldl_min_le_mem : ∀ (l : List Nat) (a : Nat) {x : Nat}, x ∈ l → l.foldl min a ≤ x
  | x :: xs, a, y, h => by
    rcases List.mem_cons.mp h with h | h
    · subst h; exact le_trans (foldl_min_le_init xs (min a y)) (min_le_right a y)
    · exact foldl_min_le_mem xs (min a x) h

theorem foldl_min_eq_or_mem : ∀ (l : List Nat) (a : Nat), l.foldl min a = a ∨ l.foldl min a ∈ l
  | [], _ => Or.inl rfl
  | x :: xs, a => by
    rw [List.foldl_cons]
    rcases foldl_min_eq_or_mem xs (min a x) with h | h
    · rw [h]
      rcases min_choice a x with h₂ | h₂
      · exact Or.inl h₂
      · rw [h₂]; exact Or.inr (List.mem_cons_self x xs)
    · exact Or.inr (List.mem_cons_of_mem x h)

theorem listMin_le {l : List Nat} {x : Nat} (h : x ∈ l) : listMin l ≤ x := by
  match l, h with
  | y :: ys, h =>
    rcases List.mem_cons.mp h with h | h
    · subst h; exact foldl_min_le_init ys x
    · exact foldl_min_le_mem ys y h

theorem listMin_mem {l : List Nat} (h : l ≠ []) : listMin l ∈ l := by
  match l, h with
  | y :: ys, _ =>
    rcases foldl_min_eq_or_mem ys y with h₀ | h₀
    · show ys.foldl min y ∈ y :: ys
      rw [h₀]
      exact List.mem_cons_self y ys
    · exact List.mem_cons_of_mem y h₀

theorem dateOf_mono {a b : Nat} (h : a ≤ b) : dateOf a ≤ dateOf b :=
  Nat.div_le_div_right h

theorem dateOf_max (a b : Nat) : dateOf (max a b) = max (dateOf a) (dateOf b) := by
  rcases le_total a b with h | h
  · rw [max_eq_right h, max_eq_right (dateOf_mono h)]
  · rw [max_eq_left h, max_eq_left (dateOf_mono h)]

theorem dateOf_foldl_max :
    ∀ (l : List Nat) (a : Nat), dateOf (l.foldl max a) = (l.map dateOf).foldl max (dateOf a)
  | [], _ => rfl
  | x :: xs, a => by
    rw [List.foldl_cons, dateOf_foldl_max xs, List.map_cons, List.foldl_cons, dateOf_max]

theorem dateOf_listMax (l : List Nat) : dateOf (listMax l) = listMax (l.map dateOf) := by
  have h0 : dateOf 0 = 0 := rfl
  rw [listMax, dateOf_foldl_max, h0, listMax]

theorem minDate_le {df : List Row} {r : Row} (h : r ∈ df) : minDate df ≤ purchaseDate r :=
  listMin_le (List.mem_map_of_mem _ h)

theorem le_maxDate {df : List Row} {r : Row} (h : r ∈ df) : purchaseDate r ≤ maxDate df :=
  le_listMax (List.mem_map_of_mem _ h)

theorem minDate_le_maxDate {df : List Row} (h : df ≠ []) : minDate df ≤ maxDate df := by
  match df, h with
  | r :: rs, _ =>
    exact le_trans (minDate_le (List.mem_cons_self r rs)) (le_maxDate (List.mem_cons_self r rs))

theorem exists_purchaseDate_eq_maxDate {df : List Row} (h : df ≠ []) :
    ∃ r ∈ df, purchaseDate r = maxDate df := by
  have hne : df.map purchaseDate ≠ [] := by
    intro hc; exact h (List.map_eq_nil_iff.mp hc)
  rcases List.mem_map.mp (listMax_mem hne) with ⟨r, hr, he⟩
  exact ⟨r, hr, he⟩

theorem mem_groupKeys {l : List String} {x : String} : x ∈ groupKeys l ↔ x ∈ l := by
  rw [groupKeys, List.mem_insertionSort, List.mem_dedup]

theorem groupKeys_nodup (l : List String) : (groupKeys l).Nodup :=
  (List.perm_insertionSort strLe l.dedup).nodup_iff.mpr (List.nodup_dedup l)

theorem groupKeys_sorted (l : List String) : (groupKeys l).Pairwise strLe :=
  List.sorted_insertionSort strLe l.dedup

theorem sum_map_filter_add {α M : Type _} [AddCommMonoid M] (p : α → Bool) (g : α → M) :
    ∀ l : List α,
      ((l.filter p).map g).sum + ((l.filter (fun x => !p x)).map g).sum = (l.map g).sum := by
  intro l
  induction l with
  | nil => simp
  | cons x xs ih =>
    by_cases hpx : p x = true
    · rw [List.filter_cons_of_pos hpx, List.filter_cons_of_neg (by simp [hpx]),
        List.map_cons, List.sum_cons, List.map_cons, List.sum_cons, add_assoc, ih]
    · rw [List.filter_cons_of_neg hpx, List.filter_cons_of_pos (by simp [hpx]),
        List.map_cons, List.sum_cons, List.map_cons, List.sum_cons, add_left_comm, ih]

theorem fiber_sum {α K M : Type _} [DecidableEq K] [AddCommMonoid M] (key : α → K) (g : α → M) :
    ∀ (ds : List K) (rows : List α), ds.Nodup → (∀ r ∈ rows, key r ∈ ds) →
      (ds.map (fun d => ((rows.filter (fun r => decide (key r = d))).map g).sum)).sum
        = (rows.map g).sum := by
  intro ds
  induction ds with
  | nil =>
    intro rows _ hcov
    have hrows : rows = [] := by
      cases rows with
      | nil => rfl
      | cons r rs => exact absurd (hcov r (List.mem_cons_self r rs)) (List.not_mem_nil _)
    subst hrows; simp
  | cons d ds ih =>
    intro rows hnd hcov
    rw [List.map_cons, List.sum_cons]
    have hnd' : ds.Nodup := (List.nodup_cons.mp hnd).2
    have hdnot : d ∉ ds := (List.nodup_cons.mp hnd).1
    have hcov' : ∀ r ∈ rows.filter (fun r => !decide (key r = d)), key r ∈ ds := by
      intro r hr
      have h1 := List.mem_filter.mp hr
      have h2 : ¬ key r = d := by simpa using h1.2
      rcases List.mem_cons.mp (hcov r h1.1) with h | h
      · exact absurd h h2
      · exact h
    have hmap : ∀ d' ∈ ds,
        (rows.filter (fun r => !decide (key r = d))).filter (fun r => decide (key r = d'))
          = rows.filter (fun r => decide (key r = d')) := by
      intro d' hd'
      rw [List.filter_filter]
      apply List.filter_congr
      intro r _
      by_cases h : key r = d'
      · have hne : ¬ d' = d := by
          intro hdd
          apply hdnot
          rw [← hdd]; exact hd'
        simp [h, hne]
      · simp [h]
    have hmaps : ds.map (fun d' =>
          (((rows.filter (fun r => !decide (key r = d))).filter
            (fun r => decide (key r = d'))).map g).sum)
        = ds.map (fun d' => ((rows.filter (fun r => decide (key r = d'))).map g).sum) := by
      apply List.map_congr_left
      intro d' hd'
      rw [hmap d' hd']
    rw [← hmaps, ih (rows.filter (fun r => !decide (key r = d))) hnd' hcov']
    exact sum_map_filter_add (fun r => decide (key r = d)) g rows

theorem sum_map_one {α : Type _} (l : List α) : (l.map (fun _ => (1 : Nat))).sum = l.length := by
  induction l with
  | nil => rfl
  | cons x xs ih => simp [ih, Nat.add_comm]

theorem fiber_count {α K : Type _} [DecidableEq K] (key : α → K)
    (ds : List K) (rows : List α) (hnd : ds.Nodup) (hcov : ∀ r ∈ rows, key r ∈ ds) :
    (ds.map (fun d => (rows.filter (fun r => decide (key r = d))).length)).sum = rows.length := by
  have h := fiber_sum key (fun _ => (1 : Nat)) ds rows hnd hcov
  simp only [sum_map_one] at h
  exact h

theorem mem_filterByDateRange {df : List Row} {s e : Nat} {r : Row} :
    r ∈ filterByDateRange df s e ↔ r ∈ df ∧ s ≤ purchaseDate r ∧ purchaseDate r ≤ e := by
  simp [filterByDateRange, List.mem_filter]

theorem mem_rowsOnDate {df : List Row} {d : Nat} {r : Row} :
    r ∈ rowsOnDate df d ↔ r ∈ df ∧ purchaseDate r = d := by
  simp [rowsOnDate, List.mem_filter]

theorem mem_rowsOfProduct {df : List Row} {p : String} {r : Row} :
    r ∈ rowsOfProduct df p ↔ r ∈ df ∧ r.product_id = p := by
  simp [rowsOfProduct, List.mem_filter]

theorem mem_rowsOfState {df : List Row} {s : String} {r : Row} :
    r ∈ rowsOfState df s ↔ r ∈ df ∧ r.customer_state = some s := by
  simp [rowsOfState, List.mem_filter]

theorem mem_customerRows {df : List Row} {c : String} {r : Row} :
    r ∈ customerRows df c ↔ r ∈ df ∧ r.customer_unique_id = c := by
  simp [customerRows, List.mem_filter]

theorem create_daily_orders_df_eq {df : List Row} (h : df ≠ []) :
    create_daily_orders_df df =
      (List.range' (minDate df) (maxDate df + 1 - minDate df)).map (fun d =>
        { date := d
          order_count := distinctCount ((rowsOnDate df d).map Row.order_id)
          revenue := ((rowsOnDate df d).map total_price).sum }) := by
  match df, h with
  | r :: rs, _ => rfl

theorem purchaseDate_mem_range {df : List Row} {r : Row} (h : r ∈ df) :
    purchaseDate r ∈ List.range' (minDate df) (maxDate df + 1 - minDate df) := by
  rw [List.mem_range'_1]
  have h1 : minDate df ≤ purchaseDate r := minDate_le h
  have h2 : purchaseDate r ≤ maxDate df := le_maxDate h
  have h3 : minDate df ≤ maxDate df := minDate_le_maxDate (List.ne_nil_of_mem h)
  omega

theorem daily_rollup_spec {df : List Row} (h : df ≠ []) : DailyRollupSpec df := by
  refine ⟨?_, ?_, ?_, ?_, ?_⟩
  · rw [create_daily_orders_df_eq h, List.length_map, List.length_range']
  · rw [create_daily_orders_df_eq h, List.map_map]
    exact List.map_id _
  · rw [create_daily_orders_df_eq h]
    exact List.Pairwise.map _ (fun a b hab => hab)
      (List.pairwise_lt_range' (minDate df) (maxDate df + 1 - minDate df))
  · intro en hen
    rw [create_daily_orders_df_eq h] at hen
    rcases List.mem_map.mp hen with ⟨d, _, rfl⟩
    exact ⟨rfl, rfl⟩
  · intro en hen hempty
    rw [create_daily_orders_df_eq h] at hen
    rcases List.mem_map.mp hen with ⟨d, _, rfl⟩
    constructor
    · show distinctCount ((rowsOnDate df d).map Row.order_id) = 0
      rw [show rowsOnDate df d = [] from hempty]
      rfl
    · show ((rowsOnDate df d).map total_price).sum = 0
      rw [show rowsOnDate df d = [] from hempty]
      rfl

theorem daily_revenue_conservation (df : List Row) :
    ((create_daily_orders_df df).map DailyEntry.revenue).sum = (df.map total_price).sum := by
  cases df with
  | nil => rfl
  | cons r rs =>
    rw [create_daily_orders_df_eq (List.cons_ne_nil r rs), List.map_map]
    exact fiber_sum purchaseDate total_price _ _ (List.nodup_range' _ _)
      (fun x hx => purchaseDate_mem_range hx)

theorem mem_create_rfm_df_of_mem {df : List Row} {c : String}
    (hc : c ∈ df.map Row.customer_unique_id) :
    ({ customer_id := c
       frequency := distinctCount ((customerRows df c).map Row.order_id)
       monetary := ((customerRows df c).map total_price).sum
       recency := (maxDate df : Int) -
         (dateOf (listMax ((customerRows df c).map Row.order_purchase_timestamp)) : Int)
       : RfmEntry }) ∈ create_rfm_df df :=
  List.mem_map_of_mem _ (mem_groupKeys.mpr hc)

theorem customer_dateOf_listMax (df : List Row) (c : String) :
    dateOf (listMax ((customerRows df c).map Row.order_purchase_timestamp))
      = customerMaxDate df c := by
  rw [dateOf_listMax, List.map_map]
  rfl

theorem customerMaxDate_le_maxDate (df : List Row) (c : String) :
    customerMaxDate df c ≤ maxDate df := by
  by_cases h : (customerRows df c).map purchaseDate = []
  · rw [customerMaxDate, h]
    exact Nat.zero_le _
  · rcases List.mem_map.mp (listMax_mem h) with ⟨r, hr, he⟩
    rw [customerMaxDate, ← he]
    exact le_maxDate (mem_customerRows.mp hr).1

theorem le_customerMaxDate {df : List Row} {c : String} {r : Row}
    (hr : r ∈ customerRows df c) : purchaseDate r ≤ customerMaxDate df c :=
  le_listMax (List.mem_map_of_mem _ hr)

theorem rfm_recency_spec {df : List Row} (h : df ≠ []) : RfmRecencySpec df := by
  refine ⟨?_, ?_, ?_⟩
  · intro c hc
    refine ⟨_, mem_create_rfm_df_of_mem hc, rfl, ?_⟩
    rw [customer_dateOf_listMax]
  · intro en hen
    rcases List.mem_map.mp hen with ⟨c, _, rfl⟩
    show (0 : Int) ≤ (maxDate df : Int) -
      (dateOf (listMax ((customerRows df c).map Row.order_purchase_timestamp)) : Int)
    rw [customer_dateOf_listMax]
    have h1 := customerMaxDate_le_maxDate df c
    omega
  · rcases exists_purchaseDate_eq_maxDate h with ⟨r, hr, he⟩
    have hc : r.customer_unique_id ∈ df.map Row.customer_unique_id :=
      List.mem_map_of_mem _ hr
    refine ⟨_, mem_create_rfm_df_of_mem hc, ?_⟩
    show (maxDate df : Int) -
      (dateOf (listMax ((customerRows df r.customer_unique_id).map
        Row.order_purchase_timestamp)) : Int) = 0
    rw [customer_dateOf_listMax]
    have h1 := customerMaxDate_le_maxDate df r.customer_unique_id
    have h2 : purchaseDate r ≤ customerMaxDate df r.customer_unique_id :=
      le_customerMaxDate (mem_customerRows.mpr ⟨hr, rfl⟩)
    omega

theorem freight_grouped_map_pid (df : List Row) :
    ((groupKeys (df.map Row.product_id)).map (fun p =>
      { product_id := p
        freight_value := ((rowsOfProduct df p).map Row.freight_value).sum
        : FreightEntry })).map FreightEntry.product_id
      = groupKeys (df.map Row.product_id) := by
  rw [List.map_map]
  exact List.map_id _

theorem freight_spec (df : List Row) :
    (create_sum_freight_items_df df).Pairwise freightGe
    ∧ (∀ p, p ∈ (create_sum_freight_items_df df).map FreightEntry.product_id
        ↔ p ∈ df.map Row.product_id)
    ∧ ((create_sum_freight_items_df df).map FreightEntry.product_id).Nodup
    ∧ (∀ en ∈ create_sum_freight_items_df df,
        en.freight_value = ((rowsOfProduct df en.product_id).map Row.freight_value).sum) := by
  have hperm : List.Perm (create_sum_freight_items_df df)
      ((groupKeys (df.map Row.product_id)).map (fun p =>
        { product_id := p
          freight_value := ((rowsOfProduct df p).map Row.freight_value).sum
          : FreightEntry })) :=
    List.perm_insertionSort _ _
  refine ⟨List.sorted_insertionSort _ _, ?_, ?_, ?_⟩
  · intro p
    rw [(hperm.map FreightEntry.product_id).mem_iff, freight_grouped_map_pid, mem_groupKeys]
  · refine ((hperm.map FreightEntry.product_id).nodup_iff).mpr ?_
    rw [freight_grouped_map_pid]
    exact groupKeys_nodup _
  · intro en hen
    have hg := hperm.mem_iff.mp hen
    rcases List.mem_map.mp hg with ⟨p, _, rfl⟩
    rfl

theorem bystate_spec (df : List Row) :
    (∀ s, s ∈ (create_bystate_df df).map StateEntry.customer_state
        ↔ some s ∈ df.map Row.customer_state)
    ∧ ((create_bystate_df df).map StateEntry.customer_state).Nodup
    ∧ (∀ en ∈ create_bystate_df df,
        en.customer_count
          = distinctCount ((rowsOfState df en.customer_state).map Row.customer_id)) := by
  have hmm : (create_bystate_df df).map StateEntry.customer_state
      = groupKeys (df.filterMap Row.customer_state) := by
    rw [create_bystate_df, List.map_map]
    exact List.map_id _
  refine ⟨?_, ?_, ?_⟩
  · intro s
    rw [hmm, mem_groupKeys, List.mem_filterMap]
    constructor
    · rintro ⟨r, hr, he⟩
      exact List.mem_map.mpr ⟨r, hr, he⟩
    · intro h
      rcases List.mem_map.mp h with ⟨r, hr, he⟩
      exact ⟨r, hr, he⟩
  · rw [hmm]
    exact groupKeys_nodup _
  · intro en hen
    rcases List.mem_map.mp hen with ⟨s, _, rfl⟩
    rfl

theorem value_counts_spec (l : List String) :
    ((value_counts l).map Prod.snd).sum = l.length
    ∧ (∀ pr ∈ value_counts l, pr.2 = (l.filter (fun x => decide (x = pr.1))).length) := by
  have hperm : List.Perm (value_counts l)
      (l.dedup.map (fun k => (k, (l.filter (fun x => decide (x = k))).length))) :=
    List.perm_insertionSort _ _
  constructor
  · rw [(hperm.map Prod.snd).sum_eq, List.map_map]
    exact fiber_count (fun x => x) l.dedup l (List.nodup_dedup l)
      (fun r hr => List.mem_dedup.mpr hr)
  · intro pr hpr
    rcases List.mem_map.mp (hperm.mem_iff.mp hpr) with ⟨k, _, rfl⟩
    rfl

theorem order_status_counts_spec (df : List Row) :
    ((order_status_counts df).map Prod.snd).sum = df.length
    ∧ (∀ pr ∈ order_status_counts df,
        pr.2 = (df.filter (fun r => decide (r.order_status = pr.1))).length) := by
  have hperm : List.Perm (order_status_counts df) (value_counts (df.map Row.order_status)) :=
    List.perm_insertionSort _ _
  constructor
  · rw [(hperm.map Prod.snd).sum_eq, (value_counts_spec (df.map Row.order_status)).1,
      List.length_map]
  · intro pr hpr
    have h := (value_counts_spec (df.map Row.order_status)).2 pr (hperm.mem_iff.mp hpr)
    rw [h, List.filter_map, List.length_map]
    rfl

theorem payment_type_counts_spec (df : List Row) :
    ((payment_type_counts df).map Prod.snd).sum = df.length
    ∧ (∀ pr ∈ payment_type_counts df,
        pr.2 = (df.filter (fun r => decide (r.payment_type = pr.1))).length) := by
  constructor
  · rw [payment_type_counts, (value_counts_spec (df.map Row.payment_type)).1, List.length_map]
  · intro pr hpr
    have h := (value_counts_spec (df.map Row.payment_type)).2 pr hpr
    rw [h, List.filter_map, List.length_map]
    rfl

theorem filterByDateRange_count (df : List Row) (s e : Nat) (r : Row) :
    (filterByDateRange df s e).count r
      = if s ≤ purchaseDate r ∧ purchaseDate r ≤ e then df.count r else 0 := by
  by_cases h : s ≤ purchaseDate r ∧ purchaseDate r ≤ e
  · rw [if_pos h, filterByDateRange, List.count_filter (by simpa using h)]
  · rw [if_neg h]
    exact List.count_eq_zero.mpr (fun hc => h (mem_filterByDateRange.mp hc).2)

theorem empty_aggregators_eq :
    create_daily_orders_df [] = []
    ∧ create_sum_freight_items_df [] = []
    ∧ create_bystate_df [] = []
    ∧ order_status_counts [] = []
    ∧ payment_type_counts [] = []
    ∧ create_rfm_df [] = [] :=
  ⟨rfl, rfl, rfl, rfl, rfl, rfl⟩

/-! ## Claim theorems -/

/-- C1, counterexample: for the filter range `[0, 2]` spanning three
calendar days, applied to a table whose only order falls on day 1, the
daily rollup has a single entry — not one entry per calendar day of the
filter range.  `resample` spans only the days present in the data. -/
theorem C1_counterexample :
    (create_daily_orders_df (filterByDateRange c1df 0 2)).length = 1
    ∧ (create_daily_orders_df (filterByDateRange c1df 0 2)).length ≠ 2 - 0 + 1 := by
  refine ⟨by decide, by decide⟩

/-- C1 (amended): on a non-empty filtered table the daily rollup has one
entry per calendar day from the earliest to the latest order day present
in the table (not per day of the filter range), sorted ascending by
date, with distinct-order counts and revenue per day and zero-filled
entries on interior days with no orders. -/
theorem C1_daily_rollup (df : List Row) (h : df ≠ []) : DailyRollupSpec df :=
  daily_rollup_spec h

/-- C1 witness: the amended rollup shape holds on a concrete one-row table. -/
theorem C1_daily_rollup_witness :
    ([sampleRow] : List Row) ≠ [] ∧ DailyRollupSpec [sampleRow] :=
  ⟨List.cons_ne_nil _ _, C1_daily_rollup [sampleRow] (List.cons_ne_nil _ _)⟩

/-- C2: on a non-empty table every customer appearing in it gets an RFM
entry whose recency is the table-wide maximum purchase calendar date
minus the customer's own maximum purchase calendar date (in whole
days), recency is never negative, and a customer who purchased on the
last active day has recency zero. -/
theorem C2_rfm_recency (df : List Row) (h : df ≠ []) : RfmRecencySpec df :=
  rfm_recency_spec h

/-- C2 witness: the recency contract holds on the concrete two-order
example table. -/
theorem C2_rfm_recency_witness :
    rfmExample ≠ [] ∧ RfmRecencySpec rfmExample :=
  ⟨List.cons_ne_nil _ _, C2_rfm_recency rfmExample (List.cons_ne_nil _ _)⟩

/-- C3, counterexample: two products with equal freight sums whose
first-encountered order is `"pb"` before `"pa"` come out of the rollup
as `"pa"` before `"pb"`: pandas `groupby` emits the groups in sorted
key order before the sort runs, so the output cannot follow first
encounter even under the claim's own "(stable sort)" reading — which is
also what the model's concrete sort realizes here. -/
theorem C3_counterexample :
    c3df.map Row.product_id = ["pb", "pa"]
    ∧ (create_sum_freight_items_df c3df).map FreightEntry.product_id = ["pa", "pb"]
    ∧ (create_sum_freight_items_df c3df).map FreightEntry.freight_value = [5, 5] := by
  have hpa : ((rowsOfProduct c3df "pa").map Row.freight_value).sum = 5 := by
    have hr : rowsOfProduct c3df "pa"
        = [{ sampleRow with order_id := "o2", product_id := "pa", freight_value := 5 }] := by
      decide
    rw [hr]
    simp
  have hpb : ((rowsOfProduct c3df "pb").map Row.freight_value).sum = 5 := by
    have hr : rowsOfProduct c3df "pb"
        = [{ sampleRow with product_id := "pb", freight_value := 5 }] := by
      decide
    rw [hr]
    simp
  have h1 : create_sum_freight_items_df c3df =
      List.insertionSort freightGe
        [{ product_id := "pa", freight_value := 5 },
         { product_id := "pb", freight_value := 5 }] := by
    have hk : groupKeys (c3df.map Row.product_id) = ["pa", "pb"] := by decide
    unfold create_sum_freight_items_df
    rw [hk, List.map_cons, List.map_cons, List.map_nil, hpa, hpb]
  refine ⟨rfl, ?_, ?_⟩
  · rw [h1]; decide
  · rw [h1]; decide

/-- C3 (amended): the freight rollup groups rows by `product_id`
(one entry per product observed, no duplicates), sums `freight_value`
per group, and returns a sequence non-increasing in summed freight
value; no order among entries with equal sums is guaranteed (the sort
is an unstable quicksort, and it receives the groups in sorted-key
order, not first-encountered order). -/
theorem C3_freight_rollup (df : List Row) :
    (create_sum_freight_items_df df).Pairwise freightGe
    ∧ (∀ p, p ∈ (create_sum_freight_items_df df).map FreightEntry.product_id
        ↔ p ∈ df.map Row.product_id)
    ∧ ((create_sum_freight_items_df df).map FreightEntry.product_id).Nodup
    ∧ (∀ en ∈ create_sum_freight_items_df df,
        en.freight_value = ((rowsOfProduct df en.product_id).map Row.freight_value).sum) :=
  freight_spec df

/-- C4: the revenue column of the daily rollup sums to the sum of
`total_price` (= price + freight_value) over the input rows — the daily
buckets partition the rows. -/
theorem C4_revenue_conservation (df : List Row) :
    ((create_daily_orders_df df).map DailyEntry.revenue).sum = (df.map total_price).sum :=
  daily_revenue_conservation df

/-- C5: every customer appearing in the table has an RFM entry whose
frequency is the number of distinct `order_id` values among that
customer's rows (never more than the row count). -/
theorem C5_rfm_frequency (df : List Row) (c : String)
    (h : c ∈ df.map Row.customer_unique_id) :
    ∃ en ∈ create_rfm_df df, en.customer_id = c
      ∧ en.frequency = distinctCount ((customerRows df c).map Row.order_id)
      ∧ en.frequency ≤ (customerRows df c).length := by
  refine ⟨_, mem_create_rfm_df_of_mem h, rfl, rfl, ?_⟩
  calc distinctCount ((customerRows df c).map Row.order_id)
      ≤ ((customerRows df c).map Row.order_id).length :=
        (List.dedup_sublist _).length_le
    _ = (customerRows df c).length := List.length_map _ _

/-- C5 witness: on a table where customer `"u1"` has three rows spanning
two distinct orders, the frequency is the distinct count 2, not the row
count 3. -/
theorem C5_rfm_frequency_witness :
    ("u1" ∈ freqExample.map Row.customer_unique_id)
    ∧ (∃ en ∈ create_rfm_df freqExample, en.customer_id = "u1"
        ∧ en.frequency = distinctCount ((customerRows freqExample "u1").map Row.order_id)
        ∧ en.frequency ≤ (customerRows freqExample "u1").length)
    ∧ distinctCount ((customerRows freqExample "u1").map Row.order_id) = 2
    ∧ (customerRows freqExample "u1").length = 3 :=
  ⟨by decide, C5_rfm_frequency freqExample "u1" (by decide), by decide, by decide⟩

/-- C6, counterexample: a non-empty table whose single row has a missing
(`none`) state produces an empty by-state rollup — the missing state
does not appear as its own group; pandas `groupby` drops null keys. -/
theorem C6_counterexample :
    c6df ≠ [] ∧ c6df.map Row.customer_state = [none] ∧ create_bystate_df c6df = [] :=
  ⟨List.cons_ne_nil _ _, rfl, rfl⟩

/-- C6 (amended): the by-state rollup has exactly one group per
non-missing state value observed in the input (unknown codes pass
through as their own group; rows with a missing state are dropped),
each mapped to the count of distinct `customer_id` values among the
rows of that state. -/
theorem C6_bystate (df : List Row) :
    (∀ s, s ∈ (create_bystate_df df).map StateEntry.customer_state
        ↔ some s ∈ df.map Row.customer_state)
    ∧ ((create_bystate_df df).map StateEntry.customer_state).Nodup
    ∧ (∀ en ∈ create_bystate_df df,
        en.customer_count
          = distinctCount ((rowsOfState df en.customer_state).map Row.customer_id)) :=
  bystate_spec df

/-- C7: a filter range selecting zero rows makes every aggregator return
a well-formed empty result. -/
theorem C7_empty_range (df : List Row) (s e : Nat)
    (h : filterByDateRange df s e = []) :
    create_daily_orders_df (filterByDateRange df s e) = []
    ∧ create_sum_freight_items_df (filterByDateRange df s e) = []
    ∧ create_bystate_df (filterByDateRange df s e) = []
    ∧ order_status_counts (filterByDateRange df s e) = []
    ∧ payment_type_counts (filterByDateRange df s e) = []
    ∧ create_rfm_df (filterByDateRange df s e) = [] := by
  rw [h]
  exact empty_aggregators_eq

/-- C7 witness: the range `[5, 9]` selects no row of a table whose only
order is on day 0, and all five aggregators return empty results. -/
theorem C7_empty_range_witness :
    filterByDateRange [sampleRow] 5 9 = []
    ∧ (create_daily_orders_df (filterByDateRange [sampleRow] 5 9) = []
      ∧ create_sum_freight_items_df (filterByDateRange [sampleRow] 5 9) = []
      ∧ create_bystate_df (filterByDateRange [sampleRow] 5 9) = []
      ∧ order_status_counts (filterByDateRange [sampleRow] 5 9) = []
      ∧ payment_type_counts (filterByDateRange [sampleRow] 5 9) = []
      ∧ create_rfm_df (filterByDateRange [sampleRow] 5 9) = []) :=
  ⟨rfl, C7_empty_range [sampleRow] 5 9 rfl⟩

/-- C8: the date-range filter keeps exactly the rows whose purchase
calendar date lies between the bounds (both inclusive), preserving
order and multiplicity (it is a sublist of the unchanged source). -/
theorem C8_date_filter (df : List Row) (s e : Nat) :
    (∀ r, r ∈ filterByDateRange df s e ↔ r ∈ df ∧ s ≤ purchaseDate r ∧ purchaseDate r ≤ e)
    ∧ List.Sublist (filterByDateRange df s e) df
    ∧ (∀ r : Row, (filterByDateRange df s e).count r
        = if s ≤ purchaseDate r ∧ purchaseDate r ≤ e then df.count r else 0) :=
  ⟨fun _ => mem_filterByDateRange, List.filter_sublist _, filterByDateRange_count df s e⟩

/-- C9: the aggregate outputs of a dashboard run do not depend on the
ambient wall clock — two runs under different clock states produce
identical filtered tables and aggregator outputs (only the greeting
reads the clock; recency's reference point comes from the data). -/
theorem C9_clock_noninterference (env₁ env₂ : Ambient) (df : List Row) (s e : Nat) :
    (run_dashboard env₁ df s e).2 = (run_dashboard env₂ df s e).2 :=
  rfl

/-- C10: the categorical distribution counters count rows (an order with
several line-item rows contributes once per row), so the counts over
all categories of a column sum to the number of input rows. -/
theorem C10_categorical_counts (df : List Row) :
    ((order_status_counts df).map Prod.snd).sum = df.length
    ∧ ((payment_type_counts df).map Prod.snd).sum = df.length
    ∧ (∀ pr ∈ order_status_counts df,
        pr.2 = (df.filter (fun r => decide (r.order_status = pr.1))).length)
    ∧ (∀ pr ∈ payment_type_counts df,
        pr.2 = (df.filter (fun r => decide (r.payment_type = pr.1))).length) :=
  ⟨(order_status_counts_spec df).1, (payment_type_counts_spec df).1,
   (order_status_counts_spec df).2, (payment_type_counts_spec df).2⟩

/-- C3 witness: the amended freight-rollup contract instantiated on a
concrete one-row table. -/
theorem C3_freight_rollup_witness :
    (create_sum_freight_items_df [sampleRow]).Pairwise freightGe
    ∧ (∀ p, p ∈ (create_sum_freight_items_df [sampleRow]).map FreightEntry.product_id
        ↔ p ∈ ([sampleRow] : List Row).map Row.product_id)
    ∧ ((create_sum_freight_items_df [sampleRow]).map FreightEntry.product_id).Nodup
    ∧ (∀ en ∈ create_sum_freight_items_df [sampleRow],
        en.freight_value
          = ((rowsOfProduct [sampleRow] en.product_id).map Row.freight_value).sum) :=
  C3_freight_rollup [sampleRow]

/-- C6 witness: the amended by-state contract instantiated on a concrete
one-row table with a present state. -/
theorem C6_bystate_witness :
    (∀ s, s ∈ (create_bystate_df [sampleRow]).map StateEntry.customer_state
        ↔ some s ∈ ([sampleRow] : List Row).map Row.customer_state)
    ∧ ((create_bystate_df [sampleRow]).map StateEntry.customer_state).Nodup
    ∧ (∀ en ∈ create_bystate_df [sampleRow],
        en.customer_count
          = distinctCount ((rowsOfState [sampleRow] en.customer_state).map Row.customer_id)) :=
  C6_bystate [sampleRow]

/-- C8 witness: the filter contract instantiated on a concrete table and
range. -/
theorem C8_date_filter_witness :
    (∀ r, r ∈ filterByDateRange [sampleRow] 0 2
        ↔ r ∈ ([sampleRow] : List Row) ∧ 0 ≤ purchaseDate r ∧ purchaseDate r ≤ 2)
    ∧ List.Sublist (filterByDateRange [sampleRow] 0 2) [sampleRow]
    ∧ (∀ r : Row, (filterByDateRange [sampleRow] 0 2).count r
        = if 0 ≤ purchaseDate r ∧ purchaseDate r ≤ 2
          then ([sampleRow] : List Row).count r else 0) :=
  C8_date_filter [sampleRow] 0 2

/-- C10 witness: the row-counting contract instantiated on a concrete
three-row table. -/
theorem C10_categorical_counts_witness :
    ((order_status_counts freqExample).map Prod.snd).sum = freqExample.length
    ∧ ((payment_type_counts freqExample).map Prod.snd).sum = freqExample.length
    ∧ (∀ pr ∈ order_status_counts freqExample,
        pr.2 = (freqExample.filter (fun r => decide (r.order_status = pr.1))).length)
    ∧ (∀ pr ∈ payment_type_counts freqExample,
        pr.2 = (freqExample.filter (fun r => decide (r.payment_type = pr.1))).length) :=
  C10_categorical_counts freqExample

end Dashboard
